import Mathlib

/-!
Verification of the admin backend (`backend.js`): a shallow embedding of the
authorization gate (`requireAdmin`) and the three admin operation handlers
(`/admin/create-user`, `/admin/list-users`, `/admin/delete-user`), with
theorems settling the specification's claims about them.

JavaScript values that flow through request bodies and user metadata are
modelled by `JVal`; JS truthiness by `truthy`; the external Supabase client
calls (`auth.getUser`, `auth.admin.createUser`, `auth.admin.listUsers`,
`auth.admin.deleteUser`) are parameters of the embedded functions, and every
embedded function additionally returns the list of calls it made to the
provider, so that "no provider call is made" is a provable statement.
-/

namespace AdminBackend

/-- A JavaScript value, as far as the backend inspects one: `undefined`,
`null`, booleans, numbers, strings and plain objects (field lists). -/
inductive JVal where
  | undefined : JVal
  | null : JVal
  | bool : Bool → JVal
  | num : Int → JVal
  | str : String → JVal
  | obj : List (String × JVal) → JVal

/-- JS truthiness: `undefined`, `null`, `false`, `0`, and `""` are falsy;
every object is truthy. -/
def truthy : JVal → Bool
  | .undefined => false
  | .null => false
  | .bool b => b
  | .num n => n ≠ 0
  | .str s => s ≠ ""
  | .obj _ => true

/-- Property access `v.k` on a JS value: on an object, the value of the
first field named `k` (or `undefined` when absent); `undefined` otherwise. -/
def jget : JVal → String → JVal
  | .obj fs, k => ((fs.find? (fun p => p.1 = k)).map (fun p => p.2)).getD .undefined
  | _, _ => .undefined

/-- Optional chaining `v?.k`: `undefined` when `v` is `undefined` or `null`,
otherwise ordinary property access. -/
def optChainGet (v : JVal) (k : String) : JVal :=
  match v with
  | .undefined => .undefined
  | .null => .undefined
  | _ => jget v k

/-- Whether an object value carries a field named `k` at all. -/
def hasField (v : JVal) (k : String) : Bool :=
  match v with
  | .obj fs => fs.any (fun p => p.1 = k)
  | _ => false

/-- Strict string comparison `v === s` (JS `===` against a string literal). -/
def jIsStr (v : JVal) (s : String) : Bool :=
  match v with
  | .str t => t = s
  | _ => false

/-- An HTTP response: status code plus JSON body (`res.status(s).json(b)`;
`res.json(b)` alone is status 200). -/
structure Response where
  status : Nat
  body : JVal

/-- The JSON error body `{ error: msg }` every failure path produces. -/
def errorBody (msg : String) : JVal :=
  .obj [("error", .str msg)]

/-- Model of JS `s.startsWith(p)` (header strings are sequences of
characters; the check is a literal character-by-character comparison). -/
def strStartsWith (s p : String) : Bool :=
  p.toList.isPrefixOf s.toList

/-- Model of JS `s.slice(n)`: the string without its first `n` characters. -/
def strDrop (s : String) (n : Nat) : String :=
  String.mk (s.toList.drop n)

/-- The caller identity the provider resolves a token to; the gate reads
only its `user_metadata`. -/
structure User where
  user_metadata : JVal

/-- Outcome of `adminClient.auth.getUser(token)`: either the awaited call
raises, or it returns `{ data: { user }, error }`, modelled as an error flag
and an optional user. -/
inductive ResolveOutcome where
  | throws : ResolveOutcome
  | ok : Bool → Option User → ResolveOutcome

/-- Result of the gate: a rejection response, or permission with the
resolved identity attached (`req.user = user; next()`). -/
inductive GateResult where
  | reject : Nat → JVal → GateResult
  | permit : User → GateResult

/-- The authorization gate `requireAdmin` of `backend.js` (lines 37–54).
Takes the `Authorization` header (absent or a string) and the provider's
token-resolution behaviour; returns the gate result together with the list
of tokens it asked the provider to resolve. -/
def requireAdmin (auth : Option String) (resolve : String → ResolveOutcome) :
    GateResult × List String :=
  let authHeader := auth.getD ""
  let token : Option String :=
    if strStartsWith authHeader "Bearer " then some (strDrop authHeader 7) else none
  match token with
  | none => (.reject 401 (errorBody "Missing bearer token"), [])
  | some t =>
    if t = "" then (.reject 401 (errorBody "Missing bearer token"), [])
    else
      match resolve t with
      | .throws => (.reject 500 (errorBody "Auth verification failed"), [t])
      | .ok e u =>
        match u with
        | none => (.reject 401 (errorBody "Invalid token"), [t])
        | some user =>
          if e then (.reject 401 (errorBody "Invalid token"), [t])
          else
            if jIsStr (optChainGet user.user_metadata "role") "admin" then
              (.permit user, [t])
            else
              (.reject 403 (errorBody "Admin only"), [t])

/-- The argument object passed to `adminClient.auth.admin.createUser`. -/
structure CreateArgs where
  email : JVal
  password : JVal
  user_metadata : JVal
  email_confirm : Bool

/-- Result of `auth.admin.createUser`: `{ data, error }` with either an
error message or the created user record. -/
inductive CreateResult where
  | err : String → CreateResult
  | ok : JVal → CreateResult

/-- Result of `auth.admin.listUsers`. -/
inductive ListResult where
  | err : String → ListResult
  | ok : JVal → ListResult

/-- The `POST /admin/create-user` handler body (lines 58–70), after the
gate has permitted the request. Returns the response and the list of
`createUser` calls made to the provider. -/
def createUserHandler (body : JVal) (provider : CreateArgs → CreateResult) :
    Response × List CreateArgs :=
  let b := if truthy body then body else .obj []
  let email := jget b "email"
  let password := jget b "password"
  let user_metadata := jget b "user_metadata"
  if !truthy email || !truthy password then
    ({ status := 400, body := errorBody "email and password required" }, [])
  else
    let args : CreateArgs :=
      { email := email
        password := password
        user_metadata := if truthy user_metadata then user_metadata
                         else .obj [("role", .str "user")]
        email_confirm := true }
    (match provider args with
     | .err msg => { status := 400, body := errorBody msg }
     | .ok u => { status := 200, body := .obj [("user", u)] }, [args])

/-- The `GET /admin/list-users` handler body (lines 72–77). The provider
call takes no argument, so its single outcome is the parameter. -/
def listUsersHandler (provider : ListResult) : Response :=
  match provider with
  | .err msg => { status := 400, body := errorBody msg }
  | .ok users => { status := 200, body := .obj [("users", users)] }

/-- The `POST /admin/delete-user` handler body (lines 79–85). The provider
`deleteUser` call returns `{ error }`: `some msg` on failure, `none` on
success. Returns the response and the list of ids passed to the provider. -/
def deleteUserHandler (body : JVal) (provider : JVal → Option String) :
    Response × List JVal :=
  let b := if truthy body then body else .obj []
  let id := jget b "id"
  if !truthy id then
    ({ status := 400, body := errorBody "id required" }, [])
  else
    (match provider id with
     | some msg => { status := 400, body := errorBody msg }
     | none => { status := 200, body := .obj [("success", .bool true)] }, [id])

/-- Full `POST /admin/create-user` endpoint: gate, then handler. Returns
the response, the tokens resolved by the gate, and the provider
`createUser` calls made by the handler. -/
def createUserEndpoint (auth : Option String) (resolve : String → ResolveOutcome)
    (body : JVal) (provider : CreateArgs → CreateResult) :
    Response × List String × List CreateArgs :=
  match requireAdmin auth resolve with
  | (.reject s b, rcalls) => ({ status := s, body := b }, rcalls, [])
  | (.permit _, rcalls) =>
    let hr := createUserHandler body provider
    (hr.1, rcalls, hr.2)

/-- Full `GET /admin/list-users` endpoint: gate, then handler. The third
component records whether the handler's provider call happened. -/
def listUsersEndpoint (auth : Option String) (resolve : String → ResolveOutcome)
    (provider : ListResult) : Response × List String × Bool :=
  match requireAdmin auth resolve with
  | (.reject s b, rcalls) => ({ status := s, body := b }, rcalls, false)
  | (.permit _, rcalls) => (listUsersHandler provider, rcalls, true)

/-- Full `POST /admin/delete-user` endpoint: gate, then handler. -/
def deleteUserEndpoint (auth : Option String) (resolve : String → ResolveOutcome)
    (body : JVal) (provider : JVal → Option String) :
    Response × List String × List JVal :=
  match requireAdmin auth resolve with
  | (.reject s b, rcalls) => ({ status := s, body := b }, rcalls, [])
  | (.permit _, rcalls) =>
    let hr := deleteUserHandler body provider
    (hr.1, rcalls, hr.2)

/-! ### Helper lemmas about the gate -/

/-- When no `Bearer ` header is presented, the gate rejects 401 without
calling the provider. -/
theorem requireAdmin_no_bearer (auth : Option String) (resolve : String → ResolveOutcome)
    (h : ∀ a, auth = some a → strStartsWith a "Bearer " = false) :
    requireAdmin auth resolve =
      (.reject 401 (errorBody "Missing bearer token"), []) := by
  cases auth with
  | none =>
    simp [requireAdmin, (by decide : strStartsWith "" "Bearer " = false)]
  | some a =>
    simp [requireAdmin, h a rfl]

/-- When the header parses, the token is nonempty, the provider resolves it
without error to a user whose role claim is exactly `admin`, the gate
permits. -/
theorem requireAdmin_permit (a : String) (resolve : String → ResolveOutcome) (user : User)
    (hB : strStartsWith a "Bearer " = true) (hNe : strDrop a 7 ≠ "")
    (hRes : resolve (strDrop a 7) = .ok false (some user))
    (hRole : jIsStr (optChainGet user.user_metadata "role") "admin" = true) :
    requireAdmin (some a) resolve = (.permit user, [strDrop a 7]) := by
  simp [requireAdmin, hB, hNe, hRes, hRole]

/-! ### Claim theorems -/

/-- Claim C1: when the provider resolves the token to an identity whose
`user_metadata.role` is not exactly `admin`, the gate rejects with status
403 and an error body, and on each gated endpoint the operation handler
does not execute (its provider-call list is empty). -/
theorem non_admin_role_rejected_403 (a : String) (resolve : String → ResolveOutcome)
    (user : User) (body : JVal) (cprov : CreateArgs → CreateResult)
    (lprov : ListResult) (dprov : JVal → Option String)
    (hB : strStartsWith a "Bearer " = true) (hNe : strDrop a 7 ≠ "")
    (hRes : resolve (strDrop a 7) = .ok false (some user))
    (hRole : jIsStr (optChainGet user.user_metadata "role") "admin" = false) :
    requireAdmin (some a) resolve = (.reject 403 (errorBody "Admin only"), [strDrop a 7])
    ∧ createUserEndpoint (some a) resolve body cprov =
        ({ status := 403, body := errorBody "Admin only" }, [strDrop a 7], [])
    ∧ listUsersEndpoint (some a) resolve lprov =
        ({ status := 403, body := errorBody "Admin only" }, [strDrop a 7], false)
    ∧ deleteUserEndpoint (some a) resolve body dprov =
        ({ status := 403, body := errorBody "Admin only" }, [strDrop a 7], []) := by
  have hg : requireAdmin (some a) resolve =
      (.reject 403 (errorBody "Admin only"), [strDrop a 7]) := by
    simp [requireAdmin, hB, hNe, hRes, hRole]
  exact ⟨hg, by simp [createUserEndpoint, hg], by simp [listUsersEndpoint, hg],
    by simp [deleteUserEndpoint, hg]⟩

/-- Witness for C1 at a concrete input: token `tok1`, role `user`. -/
theorem non_admin_role_rejected_403_witness :
    requireAdmin (some "Bearer tok1")
        (fun _ => .ok false (some ⟨JVal.obj [("role", JVal.str "user")]⟩)) =
      (.reject 403 (errorBody "Admin only"), ["tok1"])
    ∧ createUserEndpoint (some "Bearer tok1")
        (fun _ => .ok false (some ⟨JVal.obj [("role", JVal.str "user")]⟩))
        (JVal.obj []) (fun _ => .err "no") =
      ({ status := 403, body := errorBody "Admin only" }, ["tok1"], [])
    ∧ listUsersEndpoint (some "Bearer tok1")
        (fun _ => .ok false (some ⟨JVal.obj [("role", JVal.str "user")]⟩))
        (.err "no") =
      ({ status := 403, body := errorBody "Admin only" }, ["tok1"], false)
    ∧ deleteUserEndpoint (some "Bearer tok1")
        (fun _ => .ok false (some ⟨JVal.obj [("role", JVal.str "user")]⟩))
        (JVal.obj []) (fun _ => some "no") =
      ({ status := 403, body := errorBody "Admin only" }, ["tok1"], []) := by
  have h := non_admin_role_rejected_403 "Bearer tok1"
    (fun _ => .ok false (some ⟨JVal.obj [("role", JVal.str "user")]⟩))
    ⟨JVal.obj [("role", JVal.str "user")]⟩ (JVal.obj []) (fun _ => .err "no")
    (.err "no") (fun _ => some "no")
    (by decide) (by decide) rfl (by decide)
  simpa using h

/-- Claim C2: when the `Authorization` header is absent or does not begin
with `Bearer `, every gated endpoint rejects with status 401, treated
identically to no token, and no provider call is made (neither a token
resolution nor an operation call). -/
theorem missing_bearer_rejected_401 (auth : Option String)
    (resolve : String → ResolveOutcome) (body : JVal)
    (cprov : CreateArgs → CreateResult) (lprov : ListResult)
    (dprov : JVal → Option String)
    (h : ∀ a, auth = some a → strStartsWith a "Bearer " = false) :
    requireAdmin auth resolve = (.reject 401 (errorBody "Missing bearer token"), [])
    ∧ createUserEndpoint auth resolve body cprov =
        ({ status := 401, body := errorBody "Missing bearer token" }, [], [])
    ∧ listUsersEndpoint auth resolve lprov =
        ({ status := 401, body := errorBody "Missing bearer token" }, [], false)
    ∧ deleteUserEndpoint auth resolve body dprov =
        ({ status := 401, body := errorBody "Missing bearer token" }, [], []) := by
  have hg := requireAdmin_no_bearer auth resolve h
  exact ⟨hg, by simp [createUserEndpoint, hg], by simp [listUsersEndpoint, hg],
    by simp [deleteUserEndpoint, hg]⟩

/-- Witness for C2 at a concrete input: a malformed header `Token abc`. -/
theorem missing_bearer_rejected_401_witness :
    requireAdmin (some "Token abc") (fun _ => .throws) =
      (.reject 401 (errorBody "Missing bearer token"), [])
    ∧ createUserEndpoint (some "Token abc") (fun _ => .throws)
        (JVal.obj []) (fun _ => .err "no") =
      ({ status := 401, body := errorBody "Missing bearer token" }, [], [])
    ∧ listUsersEndpoint (some "Token abc") (fun _ => .throws) (.err "no") =
      ({ status := 401, body := errorBody "Missing bearer token" }, [], false)
    ∧ deleteUserEndpoint (some "Token abc") (fun _ => .throws)
        (JVal.obj []) (fun _ => some "no") =
      ({ status := 401, body := errorBody "Missing bearer token" }, [], []) := by
  exact missing_bearer_rejected_401 (some "Token abc") (fun _ => .throws)
    (JVal.obj []) (fun _ => .err "no") (.err "no") (fun _ => some "no")
    (by intro a ha; cases ha; decide)

/-- Claim C3: when the provider's resolve-token operation reports an error
or returns no identity, the gate rejects with status 401. -/
theorem invalid_token_rejected_401 (a : String) (resolve : String → ResolveOutcome)
    (e : Bool) (u : Option User)
    (hB : strStartsWith a "Bearer " = true) (hNe : strDrop a 7 ≠ "")
    (hRes : resolve (strDrop a 7) = .ok e u)
    (hBad : e = true ∨ u = none) :
    requireAdmin (some a) resolve =
      (.reject 401 (errorBody "Invalid token"), [strDrop a 7]) := by
  rcases hBad with h | h
  · subst h
    cases u <;> simp [requireAdmin, hB, hNe, hRes]
  · subst h
    simp [requireAdmin, hB, hNe, hRes]

/-- Witness for C3 at a concrete input: provider reports an error. -/
theorem invalid_token_rejected_401_witness :
    requireAdmin (some "Bearer tok2") (fun _ => .ok true none) =
      (.reject 401 (errorBody "Invalid token"), ["tok2"]) := by
  exact invalid_token_rejected_401 "Bearer tok2" (fun _ => .ok true none)
    true none (by decide) (by decide) rfl (Or.inl rfl)

/-- Claim C4: an exception raised inside the gate's verification is mapped
to status 500 with a generic error body rather than propagated, and 500 is
distinct from the 401 and 403 rejection statuses. -/
theorem gate_exception_maps_to_500 (a : String) (resolve : String → ResolveOutcome)
    (hB : strStartsWith a "Bearer " = true) (hNe : strDrop a 7 ≠ "")
    (hRes : resolve (strDrop a 7) = .throws) :
    requireAdmin (some a) resolve =
      (.reject 500 (errorBody "Auth verification failed"), [strDrop a 7])
    ∧ (500 : Nat) ≠ 401 ∧ (500 : Nat) ≠ 403 := by
  exact ⟨by simp [requireAdmin, hB, hNe, hRes], by decide, by decide⟩

/-- Witness for C4 at a concrete input: the resolution call raises. -/
theorem gate_exception_maps_to_500_witness :
    requireAdmin (some "Bearer tok3") (fun _ => .throws) =
      (.reject 500 (errorBody "Auth verification failed"), ["tok3"])
    ∧ (500 : Nat) ≠ 401 ∧ (500 : Nat) ≠ 403 := by
  exact gate_exception_maps_to_500 "Bearer tok3" (fun _ => .throws)
    (by decide) (by decide) rfl

/-- A field that is absent reads as `undefined`. -/
theorem jget_undef_of_missing (b : JVal) (k : String)
    (h : hasField b k = false) : jget b k = .undefined := by
  cases b with
  | obj fs =>
    simp only [hasField, List.any_eq_false] at h
    simp only [jget]
    rw [List.find?_eq_none.mpr]
    · rfl
    · intro p hp
      simpa using h p hp
  | undefined => rfl
  | null => rfl
  | bool b => rfl
  | num n => rfl
  | str s => rfl

/-- After the `req.body || \x7b\x7d` substitution, a field missing from the
body still reads as `undefined`. -/
theorem jget_body_undef_of_missing (body : JVal) (k : String)
    (h : hasField body k = false) :
    jget (if truthy body then body else .obj []) k = .undefined := by
  cases htb : truthy body
  · simpa using jget_undef_of_missing (.obj []) k (by simp [hasField])
  · simpa using jget_undef_of_missing body k h

/-- The `undefined` value is falsy. -/
theorem truthy_undefined : truthy .undefined = false := rfl

/-- Every object value is truthy. -/
theorem truthy_obj (fs : List (String × JVal)) : truthy (.obj fs) = true := rfl

/-- Claim C5: a create-user request that passed the gate but is missing
`email` or `password` gets status 400 with an error body, and no
create-account call reaches the provider. -/
theorem create_user_missing_fields_400 (a : String) (resolve : String → ResolveOutcome)
    (user : User) (body : JVal) (cprov : CreateArgs → CreateResult)
    (hB : strStartsWith a "Bearer " = true) (hNe : strDrop a 7 ≠ "")
    (hRes : resolve (strDrop a 7) = .ok false (some user))
    (hRole : jIsStr (optChainGet user.user_metadata "role") "admin" = true)
    (hMiss : hasField body "email" = false ∨ hasField body "password" = false) :
    createUserEndpoint (some a) resolve body cprov =
      ({ status := 400, body := errorBody "email and password required" },
        [strDrop a 7], []) := by
  have hg := requireAdmin_permit a resolve user hB hNe hRes hRole
  have hh : createUserHandler body cprov =
      ({ status := 400, body := errorBody "email and password required" }, []) := by
    rcases hMiss with h | h <;>
      simp [createUserHandler, jget_body_undef_of_missing body _ h, truthy_undefined]
  simp [createUserEndpoint, hg, hh]

/-- Witness for C5 at a concrete input: an admin token and a body that only
carries an email. -/
theorem create_user_missing_fields_400_witness :
    createUserEndpoint (some "Bearer tok4")
        (fun _ => .ok false (some ⟨JVal.obj [("role", JVal.str "admin")]⟩))
        (JVal.obj [("email", JVal.str "a@b.com")]) (fun _ => .err "no") =
      ({ status := 400, body := errorBody "email and password required" },
        ["tok4"], []) := by
  have h := create_user_missing_fields_400 "Bearer tok4"
    (fun _ => .ok false (some ⟨JVal.obj [("role", JVal.str "admin")]⟩))
    ⟨JVal.obj [("role", JVal.str "admin")]⟩
    (JVal.obj [("email", JVal.str "a@b.com")]) (fun _ => .err "no")
    (by decide) (by decide) rfl (by decide) (Or.inr (by decide))
  simpa using h

/-- Claim C6: on a create-user request whose `email` and `password` pass
validation, an omitted `user_metadata` mapping is forwarded to the provider
as exactly `\x7b role: "user" \x7d`, and a supplied mapping is forwarded as
given. -/
theorem create_user_metadata_default (body : JVal) (cprov : CreateArgs → CreateResult)
    (hE : truthy (jget (if truthy body then body else .obj []) "email") = true)
    (hP : truthy (jget (if truthy body then body else .obj []) "password") = true) :
    (hasField body "user_metadata" = false →
      (createUserHandler body cprov).2 =
        [{ email := jget (if truthy body then body else .obj []) "email"
           password := jget (if truthy body then body else .obj []) "password"
           user_metadata := JVal.obj [("role", JVal.str "user")]
           email_confirm := true }])
    ∧ ∀ fs, jget (if truthy body then body else .obj []) "user_metadata" = JVal.obj fs →
      (createUserHandler body cprov).2 =
        [{ email := jget (if truthy body then body else .obj []) "email"
           password := jget (if truthy body then body else .obj []) "password"
           user_metadata := JVal.obj fs
           email_confirm := true }] := by
  constructor
  · intro h
    have hm := jget_body_undef_of_missing body "user_metadata" h
    simp [createUserHandler, hE, hP, hm, truthy_undefined]
  · intro fs hm
    simp [createUserHandler, hE, hP, hm, truthy_obj]

/-- Witness for C6 at a concrete input: `\x7b email, password \x7d` with no
metadata forwards the default role mapping. -/
theorem create_user_metadata_default_witness :
    (createUserHandler (JVal.obj [("email", JVal.str "a@b.com"),
        ("password", JVal.str "x")]) (fun _ => .err "no")).2 =
      [{ email := JVal.str "a@b.com"
         password := JVal.str "x"
         user_metadata := JVal.obj [("role", JVal.str "user")]
         email_confirm := true }] := by
  have h := (create_user_metadata_default
    (JVal.obj [("email", JVal.str "a@b.com"), ("password", JVal.str "x")])
    (fun _ => .err "no") (by decide) (by decide)).1 (by decide)
  simpa using h

/-- Claim C7: a delete-user request that passed the gate but is missing
`id` gets status 400 with an error body and no provider delete call; with a
valid `id`, on provider success the handler returns `\x7b success: true \x7d`. -/
theorem delete_user_missing_id_400 (a : String) (resolve : String → ResolveOutcome)
    (user : User) (body : JVal) (dprov : JVal → Option String)
    (hB : strStartsWith a "Bearer " = true) (hNe : strDrop a 7 ≠ "")
    (hRes : resolve (strDrop a 7) = .ok false (some user))
    (hRole : jIsStr (optChainGet user.user_metadata "role") "admin" = true) :
    (hasField body "id" = false →
      deleteUserEndpoint (some a) resolve body dprov =
        ({ status := 400, body := errorBody "id required" }, [strDrop a 7], []))
    ∧ (truthy (jget (if truthy body then body else .obj []) "id") = true →
       dprov (jget (if truthy body then body else .obj []) "id") = none →
       deleteUserEndpoint (some a) resolve body dprov =
         ({ status := 200, body := .obj [("success", .bool true)] }, [strDrop a 7],
           [jget (if truthy body then body else .obj []) "id"])) := by
  have hg := requireAdmin_permit a resolve user hB hNe hRes hRole
  constructor
  · intro h
    have hm := jget_body_undef_of_missing body "id" h
    simp [deleteUserEndpoint, hg, deleteUserHandler, hm, truthy_undefined]
  · intro hId hProv
    simp [deleteUserEndpoint, hg, deleteUserHandler, hId, hProv]

/-- Witness for C7 at concrete inputs: an empty body, and a body carrying
`id` with a succeeding provider. -/
theorem delete_user_missing_id_400_witness :
    deleteUserEndpoint (some "Bearer tok5")
        (fun _ => .ok false (some ⟨JVal.obj [("role", JVal.str "admin")]⟩))
        (JVal.obj []) (fun _ => some "no") =
      ({ status := 400, body := errorBody "id required" }, ["tok5"], [])
    ∧ deleteUserEndpoint (some "Bearer tok5")
        (fun _ => .ok false (some ⟨JVal.obj [("role", JVal.str "admin")]⟩))
        (JVal.obj [("id", JVal.str "u1")]) (fun _ => none) =
      ({ status := 200, body := .obj [("success", .bool true)] }, ["tok5"],
        [JVal.str "u1"]) := by
  constructor
  · have h := (delete_user_missing_id_400 "Bearer tok5"
      (fun _ => .ok false (some ⟨JVal.obj [("role", JVal.str "admin")]⟩))
      ⟨JVal.obj [("role", JVal.str "admin")]⟩ (JVal.obj []) (fun _ => some "no")
      (by decide) (by decide) rfl (by decide)).1 (by decide)
    simpa using h
  · have h := (delete_user_missing_id_400 "Bearer tok5"
      (fun _ => .ok false (some ⟨JVal.obj [("role", JVal.str "admin")]⟩))
      ⟨JVal.obj [("role", JVal.str "admin")]⟩ (JVal.obj [("id", JVal.str "u1")])
      (fun _ => none) (by decide) (by decide) rfl (by decide)).2 (by decide) rfl
    simpa using h

/-- Claim C8: when the provider reports an operation failure, each of the
three handlers returns status 400 whose error field is the provider's own
message verbatim. -/
theorem provider_errors_passed_through (msg : String) (cbody dbody : JVal)
    (hE : truthy (jget (if truthy cbody then cbody else .obj []) "email") = true)
    (hP : truthy (jget (if truthy cbody then cbody else .obj []) "password") = true)
    (hId : truthy (jget (if truthy dbody then dbody else .obj []) "id") = true) :
    (createUserHandler cbody (fun _ => .err msg)).1 =
      { status := 400, body := errorBody msg }
    ∧ listUsersHandler (.err msg) = { status := 400, body := errorBody msg }
    ∧ (deleteUserHandler dbody (fun _ => some msg)).1 =
      { status := 400, body := errorBody msg } := by
  refine ⟨?_, rfl, ?_⟩
  · simp [createUserHandler, hE, hP]
  · simp [deleteUserHandler, hId]

/-- Witness for C8 at a concrete input: the provider message
`User already registered` comes back verbatim on all three operations. -/
theorem provider_errors_passed_through_witness :
    (createUserHandler (JVal.obj [("email", JVal.str "a@b.com"),
        ("password", JVal.str "x")]) (fun _ => .err "User already registered")).1 =
      { status := 400, body := errorBody "User already registered" }
    ∧ listUsersHandler (.err "User already registered") =
      { status := 400, body := errorBody "User already registered" }
    ∧ (deleteUserHandler (JVal.obj [("id", JVal.str "u1")])
        (fun _ => some "User already registered")).1 =
      { status := 400, body := errorBody "User already registered" } := by
  exact provider_errors_passed_through "User already registered"
    (JVal.obj [("email", JVal.str "a@b.com"), ("password", JVal.str "x")])
    (JVal.obj [("id", JVal.str "u1")]) (by decide) (by decide) (by decide)

/-- Claim C9: with no parsed body at all (`undefined`), the create-user and
delete-user handlers substitute an empty object, return the 400
missing-field response, and make no provider call. -/
theorem absent_body_tolerated (cprov : CreateArgs → CreateResult)
    (dprov : JVal → Option String) :
    createUserHandler JVal.undefined cprov =
      ({ status := 400, body := errorBody "email and password required" }, [])
    ∧ deleteUserHandler JVal.undefined dprov =
      ({ status := 400, body := errorBody "id required" }, [])
    ∧ createUserHandler JVal.undefined cprov = createUserHandler (JVal.obj []) cprov
    ∧ deleteUserHandler JVal.undefined dprov = deleteUserHandler (JVal.obj []) dprov := by
  exact ⟨rfl, rfl, rfl, rfl⟩

/-- Claim C10: the metadata default fires for every falsy supplied
`user_metadata` (such as `null`, `false`, `""`), and a supplied empty
object is forwarded unchanged, leaving the created user with no role
field. -/
theorem falsy_metadata_defaulted (body : JVal) (cprov : CreateArgs → CreateResult)
    (hE : truthy (jget (if truthy body then body else .obj []) "email") = true)
    (hP : truthy (jget (if truthy body then body else .obj []) "password") = true) :
    (truthy (jget (if truthy body then body else .obj []) "user_metadata") = false →
      (createUserHandler body cprov).2 =
        [{ email := jget (if truthy body then body else .obj []) "email"
           password := jget (if truthy body then body else .obj []) "password"
           user_metadata := JVal.obj [("role", JVal.str "user")]
           email_confirm := true }])
    ∧ (jget (if truthy body then body else .obj []) "user_metadata" = JVal.obj [] →
       (createUserHandler body cprov).2 =
         [{ email := jget (if truthy body then body else .obj []) "email"
            password := jget (if truthy body then body else .obj []) "password"
            user_metadata := JVal.obj []
            email_confirm := true }]
       ∧ jget (JVal.obj []) "role" = JVal.undefined) := by
  constructor
  · intro hm
    simp [createUserHandler, hE, hP, hm]
  · intro hm
    exact ⟨by simp [createUserHandler, hE, hP, hm, truthy_obj], rfl⟩

/-- Witness for C10 at concrete inputs: `user_metadata: null` is replaced
by the default role mapping, while `user_metadata: \x7b\x7d` is forwarded
unchanged. -/
theorem falsy_metadata_defaulted_witness :
    (createUserHandler (JVal.obj [("email", JVal.str "a@b.com"),
        ("password", JVal.str "x"), ("user_metadata", JVal.null)])
        (fun _ => .err "no")).2 =
      [{ email := JVal.str "a@b.com"
         password := JVal.str "x"
         user_metadata := JVal.obj [("role", JVal.str "user")]
         email_confirm := true }]
    ∧ (createUserHandler (JVal.obj [("email", JVal.str "a@b.com"),
        ("password", JVal.str "x"), ("user_metadata", JVal.obj [])])
        (fun _ => .err "no")).2 =
      [{ email := JVal.str "a@b.com"
         password := JVal.str "x"
         user_metadata := JVal.obj []
         email_confirm := true }] := by
  constructor
  · have h := (falsy_metadata_defaulted
      (JVal.obj [("email", JVal.str "a@b.com"), ("password", JVal.str "x"),
        ("user_metadata", JVal.null)])
      (fun _ => .err "no") (by decide) (by decide)).1 (by decide)
    simpa using h
  · have h := (falsy_metadata_defaulted
      (JVal.obj [("email", JVal.str "a@b.com"), ("password", JVal.str "x"),
        ("user_metadata", JVal.obj [])])
      (fun _ => .err "no") (by decide) (by decide)).2 rfl
    simpa using h.1

end AdminBackend
